import Mathlib

/-!
Verification of `faktum_ai_tools/util.py`: a shallow embedding of the
checksum component (`add_checksum_column`), the value-marshaling helper
(`fill_null`), the range-filter builder (`build_where`) and the statement
synthesis of `upsert_dataframe` / `sync_dataframe_to_mssql`, together with
theorems settling the specification claims.

Machine integers are modelled as `Nat` with explicit `% 2^32` where 32-bit
overflow matters.  Python strings are Lean `String`s; `bytes` are
`List Nat` (each element < 256).
-/

set_option maxRecDepth 100000

namespace FaktumTools

/-! ### MD5 (model of Python's `hashlib.md5(...).hexdigest()`)

A byte-level implementation of RFC 1321 MD5 over `List Nat`, with 32-bit
words as `Nat` reduced mod `2^32`.  Validated below against the standard
test vectors and the digests printed in the docstring of
`add_checksum_column`. -/

/-- The 64 per-round additive constants of MD5 (RFC 1321). -/
def md5K : List Nat :=
  [0xd76aa478, 0xe8c7b756, 0x242070db, 0xc1bdceee,
   0xf57c0faf, 0x4787c62a, 0xa8304613, 0xfd469501,
   0x698098d8, 0x8b44f7af, 0xffff5bb1, 0x895cd7be,
   0x6b901122, 0xfd987193, 0xa679438e, 0x49b40821,
   0xf61e2562, 0xc040b340, 0x265e5a51, 0xe9b6c7aa,
   0xd62f105d, 0x02441453, 0xd8a1e681, 0xe7d3fbc8,
   0x21e1cde6, 0xc33707d6, 0xf4d50d87, 0x455a14ed,
   0xa9e3e905, 0xfcefa3f8, 0x676f02d9, 0x8d2a4c8a,
   0xfffa3942, 0x8771f681, 0x6d9d6122, 0xfde5380c,
   0xa4beea44, 0x4bdecfa9, 0xf6bb4b60, 0xbebfbc70,
   0x289b7ec6, 0xeaa127fa, 0xd4ef3085, 0x04881d05,
   0xd9d4d039, 0xe6db99e5, 0x1fa27cf8, 0xc4ac5665,
   0xf4292244, 0x432aff97, 0xab9423a7, 0xfc93a039,
   0x655b59c3, 0x8f0ccc92, 0xffeff47d, 0x85845dd1,
   0x6fa87e4f, 0xfe2ce6e0, 0xa3014314, 0x4e0811a1,
   0xf7537e82, 0xbd3af235, 0x2ad7d2bb, 0xeb86d391]

/-- The 64 per-round left-rotation amounts of MD5 (RFC 1321). -/
def md5S : List Nat :=
  [7, 12, 17, 22, 7, 12, 17, 22, 7, 12, 17, 22, 7, 12, 17, 22,
   5,  9, 14, 20, 5,  9, 14, 20, 5,  9, 14, 20, 5,  9, 14, 20,
   4, 11, 16, 23, 4, 11, 16, 23, 4, 11, 16, 23, 4, 11, 16, 23,
   6, 10, 15, 21, 6, 10, 15, 21, 6, 10, 15, 21, 6, 10, 15, 21]

/-- 32-bit left rotation. -/
def rotl32 (x n : Nat) : Nat :=
  ((x <<< n) ||| (x >>> (32 - n))) % 4294967296

/-- 32-bit complement (for `x < 2^32`). -/
def not32 (x : Nat) : Nat := x ^^^ 4294967295

/-- The MD5 nonlinear mixing function for round `i`. -/
def md5F (i b c d : Nat) : Nat :=
  if i < 16 then (b &&& c) ||| (not32 b &&& d)
  else if i < 32 then (d &&& b) ||| (not32 d &&& c)
  else if i < 48 then b ^^^ c ^^^ d
  else c ^^^ (b ||| not32 d)

/-- The message-word index used in round `i`. -/
def md5G (i : Nat) : Nat :=
  if i < 16 then i
  else if i < 32 then (5 * i + 1) % 16
  else if i < 48 then (3 * i + 5) % 16
  else (7 * i) % 16

/-- The running MD5 state: four 32-bit words. -/
structure MD5State where
  a : Nat
  b : Nat
  c : Nat
  d : Nat
  deriving DecidableEq, Repr

/-- One MD5 round applied to state `st` with 16-word block `m`. -/
def md5Round (m : List Nat) (st : MD5State) (i : Nat) : MD5State :=
  let f := (md5F i st.b st.c st.d + st.a + md5K.getD i 0 + m.getD (md5G i) 0) % 4294967296
  ⟨st.d, (st.b + rotl32 f (md5S.getD i 0)) % 4294967296, st.b, st.c⟩

/-- Process one 64-byte block (given as 16 little-endian words). -/
def md5ProcessBlock (st : MD5State) (m : List Nat) : MD5State :=
  let e := (List.range 64).foldl (md5Round m) st
  ⟨(st.a + e.a) % 4294967296, (st.b + e.b) % 4294967296,
   (st.c + e.c) % 4294967296, (st.d + e.d) % 4294967296⟩

/-- Group a byte list into 32-bit little-endian words. -/
def bytesToWords : List Nat → List Nat
  | b0 :: b1 :: b2 :: b3 :: rest =>
      (b0 + 256 * b1 + 65536 * b2 + 16777216 * b3) :: bytesToWords rest
  | _ => []

/-- MD5 padding: append `0x80`, zero-pad to 56 mod 64, append the 64-bit
little-endian bit length. -/
def md5Pad (msg : List Nat) : List Nat :=
  let len := msg.length
  let zeros := (120 - (len + 1) % 64) % 64
  msg ++ [128] ++ List.replicate zeros 0 ++
    (List.range 8).map (fun i => (len * 8) >>> (8 * i) % 4294967296 % 256)

/-- Fold `md5ProcessBlock` over the 64-byte chunks of `bytes`; `fuel`
bounds the recursion (any `fuel ≥ bytes.length` processes everything). -/
def md5Blocks : Nat → List Nat → MD5State → MD5State
  | 0, _, st => st
  | _ + 1, [], st => st
  | fuel + 1, b :: bs, st =>
      md5Blocks fuel ((b :: bs).drop 64) (md5ProcessBlock st (bytesToWords ((b :: bs).take 64)))

/-- Lowercase hex digit. -/
def hexDigit (n : Nat) : Char :=
  if n < 10 then Char.ofNat (48 + n) else Char.ofNat (87 + n)

/-- Two lowercase hex digits of a byte. -/
def byteToHex (b : Nat) : String :=
  String.mk [hexDigit (b / 16), hexDigit (b % 16)]

/-- The four little-endian bytes of a 32-bit word. -/
def wordLEBytes (w : Nat) : List Nat :=
  [w % 256, (w >>> 8) % 256, (w >>> 16) % 256, (w >>> 24) % 256]

/-- The lowercase-hex MD5 digest of a byte string: model of Python's
`hashlib.md5(bytes).hexdigest()`. -/
def md5Hex (msg : List Nat) : String :=
  let padded := md5Pad msg
  let st := md5Blocks padded.length padded ⟨0x67452301, 0xefcdab89, 0x98badcfe, 0x10325476⟩
  String.join ((wordLEBytes st.a ++ wordLEBytes st.b ++ wordLEBytes st.c ++ wordLEBytes st.d).map byteToHex)

/-- UTF-8 encoding of one Unicode scalar value. -/
def charUtf8 (c : Char) : List Nat :=
  let n := c.toNat
  if n < 128 then [n]
  else if n < 2048 then [192 + n / 64, 128 + n % 64]
  else if n < 65536 then [224 + n / 4096, 128 + (n / 64) % 64, 128 + n % 64]
  else [240 + n / 262144, 128 + (n / 4096) % 64, 128 + (n / 64) % 64, 128 + n % 64]

/-- UTF-8 encoding of a string: model of Python's `str.encode("utf-8")`. -/
def strUtf8 (s : String) : List Nat := (s.data.map charUtf8).flatten

/-- Validation of the MD5 model: the RFC 1321 test vector for the empty string. -/
theorem md5Hex_empty : md5Hex (strUtf8 "") = "d41d8cd98f00b204e9800998ecf8427e" := by decide

/-- Validation of the MD5 model: the RFC 1321 test vector for "abc". -/
theorem md5Hex_abc : md5Hex (strUtf8 "abc") = "900150983cd24fb0d6963f7d28e17f72" := by decide

/-- Validation of the MD5 model: the digest printed in the docstring of
`add_checksum_column` for the first ramen row (`"Yum Yum" ++ "cup" ++ "4.0"`). -/
theorem md5Hex_ramen : md5Hex (strUtf8 "Yum Yumcup4.0") = "593c621424ca8d9b333e42e3ae6461b9" := by
  decide

/-! ### Python values

The values that reach `fill_null` and `add_checksum_column` travel through
`Series.tolist()` / `astype(str)`, so the relevant universe is: the pandas
missing marker `pd.NA`, Python floats (possibly NaN) with their string
representation, strings, and integers. -/

/-- A Python value as seen by `util.py`:  `vNA` is the pandas "missing"
marker `pd.NA`; `vFloat nan r` is a Python float with NaN flag `nan` and
`str`-representation `r`; `vStr` a string; `vInt` an integer. -/
inductive PyVal
  | vNA
  | vFloat (nan : Bool) (repStr : String)
  | vStr (s : String)
  | vInt (n : Int)
  deriving DecidableEq, Repr

/-- Python's `str()` of a value (the float's representation is carried in
the value itself; `str(pd.NA)` is `"<NA>"`). -/
def pyStr : PyVal → String
  | .vNA => "<NA>"
  | .vFloat _ r => r
  | .vStr s => s
  | .vInt n => toString n

/-- The inner predicate `bad` of `fill_null`:
`isinstance(val, type(pd.NA))`, or `isinstance(val, float) and
math.isnan(val)`, or `val in ['NULL', np.nan, 'nan']`.  (The `np.nan` list
entry is unreachable: a NaN float is already caught by the `isnan` branch,
and `x == np.nan` is false for every other value.) -/
def badVal : PyVal → Bool
  | .vNA => true
  | .vFloat nan _ => nan
  | .vStr s => s == "NULL" || s == "nan"
  | .vInt _ => false

/-- Model of `fill_null(vals)`: `tuple(i if not bad(i) else None for i in vals)`.
The Python result is a tuple of `Optional` values; here `none` stands for
Python's `None`. -/
def fill_null (vals : List PyVal) : List (Option PyVal) :=
  vals.map (fun i => if badVal i then none else some i)

/-! ### Tabular payload -/

/-- A pandas DataFrame as used by `util.py`: an ordered list of column
names and rows as lists of values positionally aligned with `cols`. -/
structure DataFrame where
  cols : List String
  rows : List (List PyVal)
  deriving DecidableEq, Repr

/-- Look up the value of column `c` in a row (pandas label-based access on
a row Series: the value at the first position whose column name is `c`). -/
def getCell (cols : List String) (row : List PyVal) (c : String) : PyVal :=
  (row.get? (cols.indexOf c)).getD PyVal.vNA

/-! ### `add_checksum_column` -/

/-- The two `KeyError`s `add_checksum_column` can raise: `KeyError(diff)`
with the subset columns missing from the table, or `KeyError(id_col)`. -/
inductive ChecksumErr
  | keyErr (missing : List String)
  | keyErrId (col : String)
  deriving DecidableEq, Repr

/-- Python truthiness of the `id_col` argument (a string label or `None`):
`if id_col:` is false for `None` and for the empty string. -/
def idTruthy : Option String → Bool
  | none => false
  | some s => !(s == "")

/-- Stage 1 of the checksum pipeline:
`result[subset].apply(lambda x: "".join(x.astype(str)), axis=1)` — the
delimiter-free concatenation of the `str()` of the row's subset values,
in subset order. -/
def rowConcat (cols subset : List String) (row : List PyVal) : String :=
  String.join (subset.map (fun c => pyStr (getCell cols row c)))

/-- Stage 2 of the checksum pipeline:
`.apply(lambda value: hashlib.md5(str(value).encode("utf-8")).hexdigest())`
(the inner `str()` is the identity on the stage-1 string). -/
def rowChecksum (cols subset : List String) (row : List PyVal) : String :=
  md5Hex (strUtf8 (rowConcat cols subset row))

/-- The final `row_checksum` value for one row: the stage-2 digest,
prefixed by `result[id_col].astype(str) + sep` when `id_col` is truthy. -/
def checksumCell (cols subset : List String) (id_col : Option String) (sep : String)
    (row : List PyVal) : String :=
  let base := rowChecksum cols subset row
  if idTruthy id_col then pyStr (getCell cols row (id_col.getD "")) ++ sep ++ base else base

/-- Model of `add_checksum_column(self, id_col=None, subset=None, sep="-")`.
`subset` defaults to all columns; `Index(subset).difference(self.columns)`
non-empty raises `KeyError(diff)`; a truthy `id_col` absent from the
columns raises `KeyError(id_col)`; otherwise the result is a copy of the
table with the column `row_checksum` appended.  (The `inplace=True` path
assigns the same table to `self` instead of returning it.) -/
def add_checksum_column (df : DataFrame) (id_col : Option String)
    (subset? : Option (List String)) (sep : String) : Except ChecksumErr DataFrame :=
  let subset := subset?.getD df.cols
  let diff := subset.filter (fun c => !(df.cols.contains c))
  if diff ≠ [] then .error (.keyErr diff)
  else if idTruthy id_col && !(df.cols.contains (id_col.getD "")) then
    .error (.keyErrId (id_col.getD ""))
  else
    .ok ⟨df.cols ++ ["row_checksum"],
         df.rows.map (fun r => r ++ [PyVal.vStr (checksumCell df.cols subset id_col sep r)])⟩

/-! ### SQL statement synthesis -/

/-- Python's `sep.join(strs)`. -/
def joinSep (sep : String) : List String → String
  | [] => ""
  | [x] => x
  | x :: y :: xs => x ++ sep ++ joinSep sep (y :: xs)

/-- f-string rendering of an optional string argument (`None` prints as
`"None"`). -/
def optStr : Option String → String
  | none => "None"
  | some s => s

/-- Model of `build_where(start_date_filter_col, start_date_filter,
end_date_filter_col, end_date_filter)`: the optional range-filter clause,
empty when neither filter column is set. -/
def build_where (sdcol sdval edcol edval : Option String) : String :=
  if sdcol.isSome && edcol.isSome then
    " AND [Target].[" ++ optStr sdcol ++ "] >= '" ++ optStr sdval ++ "'" ++
      " AND [Target].[" ++ optStr edcol ++ "] <= '" ++ optStr edval ++ "'"
  else if sdcol.isSome then
    " AND [Target].[" ++ optStr sdcol ++ "] >= '" ++ optStr sdval ++ "'"
  else if edcol.isSome then
    " AND [Target].[" ++ optStr edcol ++ "] <= '" ++ optStr edval ++ "'"
  else ""

/-- The `cols_list_query` of `upsert_dataframe`: `f'[{("], [".join(cols_list))}]'`. -/
def cols_list_query (cols : List String) : String :=
  "[" ++ joinSep "], [" cols ++ "]"

/-- The `sr_cols_list_query` of `upsert_dataframe`: the `[Source].[c]` list. -/
def sr_cols_list_query (cols : List String) : String :=
  joinSep ", " (cols.map (fun i => "[Source].[" ++ i ++ "]"))

/-- The `up_cols_list_query` of `upsert_dataframe`: the `[c]=[Source].[c]` list. -/
def up_cols_list_query (cols : List String) : String :=
  joinSep ", " (cols.map (fun i => "[" ++ i ++ "]=[Source].[" ++ i ++ "]"))

/-- The `param_slots` string: `'('+', '.join(['?']*len(df.columns))+')'`. -/
def param_slots (n : Nat) : String :=
  "(" ++ joinSep ", " (List.replicate n "?") ++ ")"

/-- The `merge_on_str` of `upsert_dataframe`: the `ON` predicate, a conjunction
of `[Target].[k]=[Source].[k]` over the primary-key columns (each term
carries the f-string's trailing blank, newline and indentation). -/
def merge_on_str (keys : List String) : String :=
  joinSep " AND " (keys.map (fun k => "[Target].[" ++ k ++ "]=[Source].[" ++ k ++ "] \n        "))

/-- The `check_on_str` of `upsert_dataframe`: the change-detection predicate, a
disjunction of `[Target].[c]<>[Source].[c]` over all columns. -/
def check_on_str (cols : List String) : String :=
  joinSep " OR " (cols.map (fun c => "[Target].[" ++ c ++ "]<>[Source].[" ++ c ++ "] \n        "))

/-- The MERGE statement text built by `upsert_dataframe` (its `cmd`
f-string), as a function of the table name, key columns, payload columns
and the already-built `where_filter` string. -/
def upsert_cmd (t : String) (keys cols : List String) (wf : String) : String :=
  "\n        " ++ "MERGE INTO " ++ t ++ " AS [Target]" ++
  "\n        USING (\n            SELECT " ++
  cols_list_query cols ++ " \n            FROM (VALUES " ++ param_slots cols.length ++
  ") AS s (" ++ cols_list_query cols ++ ")\n        ) AS [Source]\n        ON " ++
  merge_on_str keys ++ "\n        " ++ "WHEN NOT MATCHED" ++ wf ++ " THEN" ++
  "\n            INSERT (" ++ cols_list_query cols ++
  ") \n            VALUES (" ++ sr_cols_list_query cols ++
  ")\n        " ++ "WHEN MATCHED AND (" ++ check_on_str cols ++ ")" ++ wf ++
  " THEN " ++ "\n            UPDATE SET " ++ up_cols_list_query cols ++ ";\n        "

/-- The parameter groups bound by `upsert_dataframe`:
`params = [fill_null(row.tolist()) for _, row in df.iterrows()]`. -/
def upsert_params (df : DataFrame) : List (List (Option PyVal)) :=
  df.rows.map fill_null

/-! ### `sync_dataframe_to_mssql` delete reconciliation -/

/-- A key tuple: the projection of one row onto the key columns. -/
abbrev KeyTuple := List PyVal

/-- The SELECT statement text of the sync delete phase (its second `cmd`
f-string): reads the current key tuples of the (range-filtered) target. -/
def select_keys_cmd (keys : List String) (t : String) (wf : String) : String :=
  "\n    SELECT " ++ joinSep ", " keys ++ "\n    FROM " ++ t ++ "\n    WHERE 1=1" ++ wf ++ ";\n    "

/-- The key tuples of the input rows:
`[tuple(i) for i in df[primary_key_cols].values]` — each row projected to
the key columns, in `primary_key_cols` order. -/
def input_key_tuples (df : DataFrame) (keys : List String) : List KeyTuple :=
  df.rows.map (fun r => keys.map (fun k => getCell df.cols r k))

/-- Model of `to_be_deleted = set(rows) - set([tuple(i) for i in df[...].values])`:
the set difference, represented as a duplicate-free list (Python's `set`
iteration order is unspecified; only the underlying set matters). -/
def to_be_deleted (serverRows inputTuples : List KeyTuple) : List KeyTuple :=
  serverRows.dedup.filter (fun k => !(inputTuples.contains k))

/-- The `delete_on_str` conjunction: `' AND '.join(f'{col}=? \n            ' for ...)` —
every key column matched by equality against a `?` placeholder. -/
def delete_on_str (keys : List String) : String :=
  joinSep " AND " (keys.map (fun k => k ++ "=?" ++ " \n            "))

/-- The DELETE statement text (`delete_cmd` f-string). -/
def delete_cmd (t : String) (keys : List String) : String :=
  "\n        DELETE FROM " ++ t ++ "\n        WHERE " ++ delete_on_str keys

/-- The delete phase of `sync_dataframe_to_mssql`: if `to_be_deleted` is
non-empty, one batched DELETE (`conn.execute(delete_cmd,
list(to_be_deleted))`) with one parameter group per tuple; otherwise no
statement at all (`'Nothing to delete. Moving on.'`). -/
def sync_delete_step (t : String) (keys : List String)
    (serverRows inputTuples : List KeyTuple) : Option (String × List KeyTuple) :=
  if 0 < (to_be_deleted serverRows inputTuples).length then
    some (delete_cmd t keys, to_be_deleted serverRows inputTuples)
  else none

/-- Modelled from the spec: the target database is an external
collaborator, so the key-set effect of executing the MERGE statement on
the (range-scoped) target table is modelled here — matched rows are
updated in place (key set unchanged), unmatched input rows are inserted,
no row is removed. -/
def merge_key_effect (target input : List KeyTuple) : List KeyTuple :=
  target ++ input.filter (fun k => !(target.contains k))

/-- Modelled from the spec: the key-set effect of the batched DELETE — the
rows whose key tuples are listed in the parameter groups are removed. -/
def delete_key_effect (target dels : List KeyTuple) : List KeyTuple :=
  target.filter (fun k => !(dels.contains k))

/-- The keys of the (range-scoped) target table after
`sync_dataframe_to_mssql`: MERGE first, then SELECT the current keys,
diff against the input keys, and apply the delete step (if any). -/
def sync_final_keys (t : String) (keys : List String)
    (server input : List KeyTuple) : List KeyTuple :=
  match sync_delete_step t keys (merge_key_effect server input) input with
  | none => merge_key_effect server input
  | some (_, dels) => delete_key_effect (merge_key_effect server input) dels

/-! ### String containment -/

/-- The pattern `pat` occurs as a contiguous substring of `s`. -/
def strContainsP (s pat : String) : Prop :=
  pat.data <:+: s.data

instance (s pat : String) : Decidable (strContainsP s pat) :=
  inferInstanceAs (Decidable (pat.data <:+: s.data))

theorem strContainsP_of_parts (A pat B s : String) (h : s = A ++ pat ++ B) :
    strContainsP s pat := by
  subst h
  show pat.data <:+: (A ++ pat ++ B).data
  rw [String.data_append, String.data_append]
  exact List.infix_append _ _ _

/-- A member of a joined list occurs in the join. -/
theorem joinSep_mem_part (sep x : String) (l : List String) (hx : x ∈ l) :
    strContainsP (joinSep sep l) x := by
  induction l with
  | nil => cases hx
  | cons y ys ih =>
    cases ys with
    | nil =>
      have hxy : x = y := List.mem_singleton.mp hx
      subst hxy
      exact List.infix_rfl
    | cons z zs =>
      rcases List.mem_cons.mp hx with rfl | hmem
      · show x.data <:+: (x ++ sep ++ joinSep sep (z :: zs)).data
        rw [String.data_append, String.data_append, List.append_assoc]
        exact (List.prefix_append _ _).isInfix
      · have h := ih hmem
        show x.data <:+: (y ++ sep ++ joinSep sep (z :: zs)).data
        rw [String.data_append]
        exact h.trans (List.suffix_append _ _).isInfix

/-- Containment extends through surrounding text. -/
theorem strContainsP_extend (A B s pat : String) (h : strContainsP s pat) :
    strContainsP (A ++ s ++ B) pat := by
  show pat.data <:+: (A ++ s ++ B).data
  rw [String.data_append, String.data_append]
  exact h.trans (List.infix_append _ _ _)

/-- Containment via a decomposition `s = A ++ (mid ++ B)` and containment
in the middle part. -/
theorem strContainsP_via (s A mid B pat : String) (h : s = A ++ (mid ++ B))
    (hm : strContainsP mid pat) : strContainsP s pat := by
  subst h
  show pat.data <:+: (A ++ (mid ++ B)).data
  rw [String.data_append, String.data_append]
  exact hm.trans (List.infix_append' _ _ _)

/-- Containment is monotone in a prefix of the pattern source. -/
theorem strContainsP_mono (s q pat : String) (hp : pat.data <+: q.data)
    (h : strContainsP s q) : strContainsP s pat :=
  hp.isInfix.trans h

/-! ### Claims about `fill_null` -/

/-- A null-sentinel value, in the spec's words: the pandas "missing"
marker, any floating-point NaN, or the literal strings "NULL" / "nan". -/
def sentinelSpec (v : PyVal) : Prop :=
  v = .vNA ∨ (∃ r, v = .vFloat true r) ∨ v = .vStr "NULL" ∨ v = .vStr "nan"

/-- The code's `bad` predicate holds exactly on the spec's sentinel set. -/
theorem badVal_iff_sentinel (v : PyVal) : badVal v = true ↔ sentinelSpec v := by
  cases v with
  | vNA => simp [badVal, sentinelSpec]
  | vFloat nan r =>
    cases nan <;> simp [badVal, sentinelSpec]
  | vStr s => simp [badVal, sentinelSpec]
  | vInt n => simp [badVal, sentinelSpec]

/-- C3: `fill_null` maps exactly the sentinel values — the pandas missing
marker, any floating-point NaN, and the literal strings "NULL" and "nan" —
to true NULL (`none`), and every other value (including the lowercase
string "null") passes through unchanged to parameter binding. -/
theorem fill_null_sentinel_normalization (vs : List PyVal) (i : Nat) (v : PyVal)
    (hv : vs[i]? = some v) :
    ((fill_null vs)[i]? = some none ↔ sentinelSpec v) ∧
    ((fill_null vs)[i]? = some (some v) ↔ ¬ sentinelSpec v) := by
  have hmap : (fill_null vs)[i]? =
      some (if badVal v then none else some v) := by
    simp [fill_null, List.getElem?_map, hv]
  rw [hmap]
  by_cases hb : badVal v = true
  · have hs : sentinelSpec v := (badVal_iff_sentinel v).mp hb
    simp [hb, hs]
  · have hs : ¬ sentinelSpec v := fun h => hb ((badVal_iff_sentinel v).mpr h)
    simp [hb, hs]

/-- Witness for C3: "NULL", a NaN float and the missing marker bind as
NULL; the lowercase string "null" binds unchanged. -/
theorem fill_null_sentinel_normalization_witness :
    (fill_null [.vStr "NULL", .vStr "null", .vNA, .vFloat true "nan"])[0]? = some none ∧
    (fill_null [.vStr "NULL", .vStr "null", .vNA, .vFloat true "nan"])[1]? =
      some (some (.vStr "null")) ∧
    (fill_null [.vStr "NULL", .vStr "null", .vNA, .vFloat true "nan"])[3]? = some none := by
  refine ⟨?_, ?_, ?_⟩
  · exact (fill_null_sentinel_normalization
      [.vStr "NULL", .vStr "null", .vNA, .vFloat true "nan"] 0 (.vStr "NULL") rfl).1.mpr (by
      simp [sentinelSpec])
  · exact (fill_null_sentinel_normalization
      [.vStr "NULL", .vStr "null", .vNA, .vFloat true "nan"] 1 (.vStr "null") rfl).2.mpr (by
      simp [sentinelSpec])
  · exact (fill_null_sentinel_normalization
      [.vStr "NULL", .vStr "null", .vNA, .vFloat true "nan"] 3 (.vFloat true "nan") rfl).1.mpr (by
      simp [sentinelSpec])

/-- C10: `fill_null` returns a sequence of exactly the input's length, in
which the element at each position is `none` when the input element is a
sentinel and is otherwise exactly the input element — order and arity are
preserved.  (In Python the result is a `tuple`, not a `list` as the
annotation says; both are modelled by `List` here.) -/
theorem fill_null_shape (vs : List PyVal) (i : Nat) (hi : i < vs.length) :
    (fill_null vs).length = vs.length ∧
    (fill_null vs)[i]? =
      some (if badVal vs[i] then none else some vs[i]) := by
  refine ⟨by simp [fill_null], ?_⟩
  simp [fill_null, List.getElem?_map, List.getElem?_eq_getElem hi]

/-- Witness for C10 at a concrete argument list. -/
theorem fill_null_shape_witness :
    (fill_null [.vInt 7, .vStr "nan"]).length = 2 ∧
    (fill_null [.vInt 7, .vStr "nan"])[0]? = some (some (.vInt 7)) := by
  have h0 := fill_null_shape [.vInt 7, .vStr "nan"] 0 (by decide)
  exact ⟨h0.1, h0.2⟩

/-! ### Claims about `add_checksum_column` -/

/-- C9: a falsy `id_col` other than `None` (the empty-string label) makes
`add_checksum_column` skip both the `id_col` existence check and the
prefixing step — the call behaves identically to `id_col=None`, and in
particular the `KeyError(id_col)` branch is unreachable. -/
theorem add_checksum_falsy_id (df : DataFrame) (subset? : Option (List String)) (sep : String) :
    add_checksum_column df (some "") subset? sep = add_checksum_column df none subset? sep ∧
    (∀ c, add_checksum_column df (some "") subset? sep ≠ .error (.keyErrId c)) := by
  constructor
  · simp [add_checksum_column, idTruthy, checksumCell]
  · intro c h
    simp only [add_checksum_column] at h
    rw [show idTruthy (some "") = false from rfl] at h
    simp only [Bool.false_and, Bool.false_eq_true, if_false] at h
    split at h
    · exact ChecksumErr.noConfusion (Except.error.inj h)
    · exact Except.noConfusion h

/-- Witness for C9 at a concrete table. -/
theorem add_checksum_falsy_id_witness :
    add_checksum_column ⟨["a"], [[.vInt 1]]⟩ (some "") none "-" =
      add_checksum_column ⟨["a"], [[.vInt 1]]⟩ none none "-" :=
  (add_checksum_falsy_id ⟨["a"], [[.vInt 1]]⟩ none "-").1

/-- C7: if any name in `subset` is absent from the table's columns, or a
set (truthy) `id_col` is absent, `add_checksum_column` fails with the
`KeyError` naming the offending columns.  The embedding is pure: an
`error` result carries no result table, so no mutation or copy of the
input is performed on this path. -/
theorem add_checksum_missing_column (df : DataFrame) (id_col : Option String)
    (subset? : Option (List String)) (sep : String) :
    ((subset?.getD df.cols).filter (fun c => !(df.cols.contains c)) ≠ [] →
      add_checksum_column df id_col subset? sep =
        .error (.keyErr ((subset?.getD df.cols).filter (fun c => !(df.cols.contains c)))) ∧
      ∀ c ∈ (subset?.getD df.cols).filter (fun c => !(df.cols.contains c)),
        c ∈ subset?.getD df.cols ∧ c ∉ df.cols) ∧
    (∀ idc, id_col = some idc → idc ≠ "" → idc ∉ df.cols →
      (subset?.getD df.cols).filter (fun c => !(df.cols.contains c)) = [] →
      add_checksum_column df id_col subset? sep = .error (.keyErrId idc)) := by
  constructor
  · intro hdiff
    constructor
    · simp only [add_checksum_column]
      rw [if_pos hdiff]
    · intro c hc
      have hm := List.mem_filter.mp hc
      refine ⟨hm.1, ?_⟩
      have := hm.2
      simp only [Bool.not_eq_true'] at this
      simpa [List.contains, List.elem_iff] using this
  · intro idc heq hne hnotin hdiff
    subst heq
    simp only [add_checksum_column]
    rw [if_neg (fun hcon => hcon hdiff), if_pos]
    · rfl
    · have h1 : idTruthy (some idc) = true := by
        simp [idTruthy, hne]
      have h2 : df.cols.contains idc = false := by
        simpa [List.contains, List.elem_iff] using hnotin
      simp [h1, h2, hnotin]

/-- Witness for C7: a subset naming an absent column fails with the
`KeyError` listing that column. -/
theorem add_checksum_missing_column_witness :
    add_checksum_column ⟨["a"], [[.vInt 1]]⟩ none (some ["b"]) "-" =
      .error (.keyErr ["b"]) := by
  have h := (add_checksum_missing_column ⟨["a"], [[.vInt 1]]⟩ none (some ["b"]) "-").1
    (by decide)
  exact h.1

/-- The checksum value the spec prescribes for one row: the lowercase-hex
MD5 digest of the UTF-8 encoding of the delimiter-free concatenation of
the string representations of the row's subset values, prefixed by
`str(id_col_value) + sep` when `id_col` is set.  (Spec formalization, to
be compared with the code's `checksumCell`.) -/
def specRowChecksum (cols subset : List String) (id_col : Option String) (sep : String)
    (row : List PyVal) : String :=
  let digest := md5Hex (strUtf8 (String.join (subset.map (fun c => pyStr (getCell cols row c)))))
  match id_col with
  | some idc => if idc ≠ "" then pyStr (getCell cols row idc) ++ sep ++ digest else digest
  | none => digest

/-- The code's per-row checksum value agrees with the spec's formula. -/
theorem checksumCell_eq_spec (cols subset : List String) (id_col : Option String)
    (sep : String) (row : List PyVal) :
    checksumCell cols subset id_col sep row = specRowChecksum cols subset id_col sep row := by
  cases id_col with
  | none => rfl
  | some idc =>
    by_cases h : idc = ""
    · subst h
      rfl
    · simp [checksumCell, specRowChecksum, idTruthy, rowChecksum, rowConcat, h]

/-- Inversion of a successful `add_checksum_column` call: the result is
the input table with the `row_checksum` column appended. -/
theorem add_checksum_ok_inv (df : DataFrame) (id_col : Option String)
    (subset? : Option (List String)) (sep : String) (res : DataFrame)
    (hok : add_checksum_column df id_col subset? sep = .ok res) :
    res = ⟨df.cols ++ ["row_checksum"],
           df.rows.map (fun r =>
             r ++ [PyVal.vStr (checksumCell df.cols (subset?.getD df.cols) id_col sep r)])⟩ := by
  simp only [add_checksum_column] at hok
  split at hok
  · exact Except.noConfusion hok
  · split at hok
    · exact Except.noConfusion hok
    · exact (Except.ok.inj hok).symm

/-- C2: on success, the attached checksum for every row equals the
lowercase-hex MD5 digest of the UTF-8 concatenation (in column order, no
delimiter) of the string representations of the row's subset values, and
with a set `id_col` the stored value is `str(id_value) + sep + digest`. -/
theorem add_checksum_value (df : DataFrame) (id_col : Option String)
    (subset? : Option (List String)) (sep : String) (res : DataFrame)
    (hok : add_checksum_column df id_col subset? sep = .ok res)
    (i : Nat) (hi : i < df.rows.length) :
    res.cols = df.cols ++ ["row_checksum"] ∧
    res.rows.length = df.rows.length ∧
    res.rows[i]? = some (df.rows[i] ++
      [PyVal.vStr (specRowChecksum df.cols (subset?.getD df.cols) id_col sep df.rows[i])]) := by
  have hres := add_checksum_ok_inv df id_col subset? sep res hok
  subst hres
  refine ⟨rfl, by simp, ?_⟩
  simp [List.getElem?_map, List.getElem?_eq_getElem hi, checksumCell_eq_spec]

/-- Witness for C2: the docstring's ramen row with `id_col="brand"`,
`subset=["style"]`, `sep="#"` yields `"Yum Yum#" ++ md5("cup")`. -/
theorem add_checksum_value_witness :
    ∃ res : DataFrame,
      add_checksum_column ⟨["brand", "style", "rating"],
          [[.vStr "Yum Yum", .vStr "cup", .vFloat false "4.0"]]⟩
        (some "brand") (some ["style"]) "#" = .ok res ∧
      res.rows[0]? = some [.vStr "Yum Yum", .vStr "cup", .vFloat false "4.0",
        .vStr "Yum Yum#f3f58ee455ae41da2ad5de06bf55e8de"] := by
  refine ⟨_, rfl, ?_⟩
  have h := add_checksum_value ⟨["brand", "style", "rating"],
      [[.vStr "Yum Yum", .vStr "cup", .vFloat false "4.0"]]⟩
    (some "brand") (some ["style"]) "#" _ rfl 0 (by decide)
  exact h.2.2

/-- C8: two rows with identical values in all `subset` columns receive
identical `row_checksum` strings from `add_checksum_column`, regardless
of their values in columns outside the subset. -/
theorem checksum_scoped_to_subset (df : DataFrame) (subset : List String) (sep : String)
    (res : DataFrame) (hok : add_checksum_column df none (some subset) sep = .ok res)
    (i j : Nat) (hi : i < df.rows.length) (hj : j < df.rows.length)
    (h : ∀ c ∈ subset, getCell df.cols df.rows[i] c = getCell df.cols df.rows[j] c) :
    ∃ s : String, res.rows[i]? = some (df.rows[i] ++ [.vStr s]) ∧
      res.rows[j]? = some (df.rows[j] ++ [.vStr s]) := by
  have hres := add_checksum_ok_inv df none (some subset) sep res hok
  subst hres
  refine ⟨checksumCell df.cols subset none sep df.rows[i], ?_, ?_⟩
  · simp [List.getElem?_map, List.getElem?_eq_getElem hi]
  · have hcc : checksumCell df.cols subset none sep df.rows[j] =
        checksumCell df.cols subset none sep df.rows[i] := by
      simp only [checksumCell, idTruthy, rowChecksum, rowConcat, if_neg Bool.false_ne_true]
      have : subset.map (fun c => pyStr (getCell df.cols df.rows[j] c)) =
          subset.map (fun c => pyStr (getCell df.cols df.rows[i] c)) :=
        List.map_congr_left (fun c hc => by rw [h c hc])
      rw [this]
    simp [List.getElem?_map, List.getElem?_eq_getElem hj, hcc]

/-- Witness for C8: the docstring's `subset=["style"]` example — two rows
sharing only the `style` value get the same checksum. -/
theorem checksum_scoped_to_subset_witness :
    ∃ (res : DataFrame) (s : String),
      add_checksum_column ⟨["brand", "style", "rating"],
          [[.vStr "Yum Yum", .vStr "cup", .vFloat false "4.0"],
           [.vStr "Indomie", .vStr "cup", .vFloat false "3.5"]]⟩
        none (some ["style"]) "-" = .ok res ∧
      res.rows[0]? = some ([.vStr "Yum Yum", .vStr "cup", .vFloat false "4.0"] ++ [.vStr s]) ∧
      res.rows[1]? = some ([.vStr "Indomie", .vStr "cup", .vFloat false "3.5"] ++ [.vStr s]) := by
  have h := checksum_scoped_to_subset ⟨["brand", "style", "rating"],
      [[.vStr "Yum Yum", .vStr "cup", .vFloat false "4.0"],
       [.vStr "Indomie", .vStr "cup", .vFloat false "3.5"]]⟩
    ["style"] "-" _ rfl 0 1 (by decide) (by decide) (by decide)
  obtain ⟨s, h0, h1⟩ := h
  exact ⟨_, s, rfl, h0, h1⟩

/-! ### Claims about the generated MERGE statement -/

/-- The filter string occurs right after the NOT-MATCHED guard. -/
theorem upsert_cmd_not_matched_guard (t : String) (keys cols : List String) (wf : String) :
    strContainsP (upsert_cmd t keys cols wf) ("WHEN NOT MATCHED" ++ wf ++ " THEN") := by
  refine strContainsP_via _
    ("\n        " ++ "MERGE INTO " ++ t ++ " AS [Target]" ++
     "\n        USING (\n            SELECT " ++
     cols_list_query cols ++ " \n            FROM (VALUES " ++ param_slots cols.length ++
     ") AS s (" ++ cols_list_query cols ++ ")\n        ) AS [Source]\n        ON " ++
     merge_on_str keys ++ "\n        ")
    ("WHEN NOT MATCHED" ++ wf ++ " THEN")
    ("\n            INSERT (" ++ cols_list_query cols ++
     ") \n            VALUES (" ++ sr_cols_list_query cols ++
     ")\n        " ++ "WHEN MATCHED AND (" ++ check_on_str cols ++ ")" ++ wf ++
     " THEN " ++ "\n            UPDATE SET " ++ up_cols_list_query cols ++ ";\n        ")
    _ ?_ List.infix_rfl
  simp only [upsert_cmd, String.append_assoc]

/-- The filter string occurs right after the MATCHED guard. -/
theorem upsert_cmd_matched_guard (t : String) (keys cols : List String) (wf : String) :
    strContainsP (upsert_cmd t keys cols wf)
      ("WHEN MATCHED AND (" ++ check_on_str cols ++ ")" ++ wf ++ " THEN ") := by
  refine strContainsP_via _
    ("\n        " ++ "MERGE INTO " ++ t ++ " AS [Target]" ++
     "\n        USING (\n            SELECT " ++
     cols_list_query cols ++ " \n            FROM (VALUES " ++ param_slots cols.length ++
     ") AS s (" ++ cols_list_query cols ++ ")\n        ) AS [Source]\n        ON " ++
     merge_on_str keys ++ "\n        " ++ "WHEN NOT MATCHED" ++ wf ++ " THEN" ++
     "\n            INSERT (" ++ cols_list_query cols ++
     ") \n            VALUES (" ++ sr_cols_list_query cols ++ ")\n        ")
    ("WHEN MATCHED AND (" ++ check_on_str cols ++ ")" ++ wf ++ " THEN ")
    ("\n            UPDATE SET " ++ up_cols_list_query cols ++ ";\n        ")
    _ ?_ List.infix_rfl
  simp only [upsert_cmd, String.append_assoc]

/-- C6: `build_where` returns the empty string when neither filter column
is set, the single `>=` / `<=` clause when exactly one is set, and the
conjunction of both clauses when both are set — and the resulting string
is appended (via the leading " AND ") to both the NOT-MATCHED and the
MATCHED branch guards of the generated MERGE statement. -/
theorem build_where_range_filter (sc ss ec es : String) (x y : Option String) :
    build_where none x none y = "" ∧
    build_where (some sc) (some ss) none y =
      " AND [Target].[" ++ sc ++ "] >= '" ++ ss ++ "'" ∧
    build_where none x (some ec) (some es) =
      " AND [Target].[" ++ ec ++ "] <= '" ++ es ++ "'" ∧
    build_where (some sc) (some ss) (some ec) (some es) =
      (" AND [Target].[" ++ sc ++ "] >= '" ++ ss ++ "'") ++
      (" AND [Target].[" ++ ec ++ "] <= '" ++ es ++ "'") ∧
    (∀ (t : String) (keys cols : List String) (sdc sdv edc edv : Option String),
      strContainsP (upsert_cmd t keys cols (build_where sdc sdv edc edv))
        ("WHEN NOT MATCHED" ++ build_where sdc sdv edc edv ++ " THEN") ∧
      strContainsP (upsert_cmd t keys cols (build_where sdc sdv edc edv))
        ("WHEN MATCHED AND (" ++ check_on_str cols ++ ")" ++
          build_where sdc sdv edc edv ++ " THEN ")) := by
  refine ⟨rfl, rfl, rfl, ?_, ?_⟩
  · show (" AND [Target].[" ++ sc ++ "] >= '" ++ ss ++ "'" ++
      " AND [Target].[" ++ ec ++ "] <= '" ++ es ++ "'" : String) = _
    simp only [String.append_assoc]
  · intro t keys cols sdc sdv edc edv
    exact ⟨upsert_cmd_not_matched_guard t keys cols _, upsert_cmd_matched_guard t keys cols _⟩

/-- Witness for C6 at concrete filter arguments. -/
theorem build_where_range_filter_witness :
    build_where (some "s") (some "2021-01-01") (some "e") (some "2021-12-31") =
      (" AND [Target].[s] >= '2021-01-01'") ++ (" AND [Target].[e] <= '2021-12-31'") ∧
    strContainsP (upsert_cmd "T" ["k"] ["k"] (build_where (some "s") (some "2021-01-01") none none))
      ("WHEN NOT MATCHED" ++ build_where (some "s") (some "2021-01-01") none none ++ " THEN") := by
  have h := build_where_range_filter "s" "2021-01-01" "e" "2021-12-31" none none
  exact ⟨h.2.2.2.1, (h.2.2.2.2 "T" ["k"] ["k"] (some "s") (some "2021-01-01") none none).1⟩

/-- The question-mark count of the joined placeholder list. -/
theorem count_q_joinSep (n : Nat) :
    (joinSep ", " (List.replicate n "?")).data.count '?' = n := by
  induction n with
  | zero => rfl
  | succ m ih =>
    cases m with
    | zero => rfl
    | succ k =>
      rw [List.replicate_succ]
      have hj : joinSep ", " ("?" :: List.replicate (k + 1) "?") =
          "?" ++ ", " ++ joinSep ", " (List.replicate (k + 1) "?") := by
        rw [List.replicate_succ]
        rfl
      rw [hj, String.data_append, String.data_append,
        List.count_append, List.count_append, ih]
      have c1 : List.count '?' "?".data = 1 := rfl
      have c2 : List.count '?' ", ".data = 0 := rfl
      rw [c1, c2]
      omega

/-- C4: for a payload with `n` rows and columns `C`, the binding
contributes one positional parameter group per row (`n` groups), each of
length `|C|`, and the source-value tuple in the statement text has
exactly `|C|` placeholder markers. -/
theorem upsert_param_groups (df : DataFrame)
    (hrows : ∀ r ∈ df.rows, r.length = df.cols.length) :
    (upsert_params df).length = df.rows.length ∧
    (∀ p ∈ upsert_params df, p.length = df.cols.length) ∧
    (param_slots df.cols.length).data.count '?' = df.cols.length := by
  refine ⟨by simp [upsert_params], ?_, ?_⟩
  · intro p hp
    obtain ⟨r, hr, rfl⟩ := List.mem_map.mp hp
    simp [fill_null, hrows r hr]
  · show (("(" ++ joinSep ", " (List.replicate df.cols.length "?")) ++ ")").data.count '?' =
      df.cols.length
    rw [String.data_append, String.data_append, List.count_append, List.count_append,
      count_q_joinSep]
    have c1 : List.count '?' "(".data = 0 := rfl
    have c2 : List.count '?' ")".data = 0 := rfl
    rw [c1, c2]
    omega

/-- Witness for C4: two rows, two columns — two groups of length two, and
two placeholders. -/
theorem upsert_param_groups_witness :
    (upsert_params ⟨["a", "b"], [[.vInt 1, .vStr "x"], [.vNA, .vInt 2]]⟩).length = 2 ∧
    (param_slots 2).data.count '?' = 2 := by
  have h := upsert_param_groups ⟨["a", "b"], [[.vInt 1, .vStr "x"], [.vNA, .vInt 2]]⟩
    (by decide)
  exact ⟨h.1, h.2.2⟩

/-- Counterexample to C5: with `table_name_to_update = "T"` the generated
MERGE statement never contains the bracket-quoted form `[T]` — the target
table name is interpolated unquoted. -/
theorem upsert_table_name_unquoted_cex :
    ¬ strContainsP (upsert_cmd "T" ["k"] ["k"] "") "[T]" := by decide

/-- C5 (amended): in the statement generated by `upsert_dataframe`, every
column name is bracket-quoted wherever it appears (`[c]`, `[Source].[c]`,
`[Target].[k]`), and the `Target` / `Source` aliases are bracket-quoted —
but the target table name passed as `table_name_to_update` and the inner
source alias `s` are interpolated without brackets. -/
theorem upsert_identifier_quoting (t : String) (keys cols : List String) (wf : String) :
    (∀ c ∈ cols,
      strContainsP (upsert_cmd t keys cols wf) ("[Source].[" ++ c ++ "]") ∧
      strContainsP (upsert_cmd t keys cols wf) ("[" ++ c ++ "]=[Source].[" ++ c ++ "]")) ∧
    (∀ k ∈ keys,
      strContainsP (upsert_cmd t keys cols wf) ("[Target].[" ++ k ++ "]=[Source].[" ++ k ++ "]")) ∧
    strContainsP (upsert_cmd t keys cols wf) ("MERGE INTO " ++ t ++ " AS [Target]") ∧
    strContainsP (upsert_cmd t keys cols wf) (") AS s (") := by
  refine ⟨?_, ?_, ?_, ?_⟩
  · intro c hc
    constructor
    · refine strContainsP_via _
        ("\n        " ++ "MERGE INTO " ++ t ++ " AS [Target]" ++
         "\n        USING (\n            SELECT " ++
         cols_list_query cols ++ " \n            FROM (VALUES " ++ param_slots cols.length ++
         ") AS s (" ++ cols_list_query cols ++ ")\n        ) AS [Source]\n        ON " ++
         merge_on_str keys ++ "\n        " ++ "WHEN NOT MATCHED" ++ wf ++ " THEN" ++
         "\n            INSERT (" ++ cols_list_query cols ++ ") \n            VALUES (")
        (sr_cols_list_query cols)
        (")\n        " ++ "WHEN MATCHED AND (" ++ check_on_str cols ++ ")" ++ wf ++
         " THEN " ++ "\n            UPDATE SET " ++ up_cols_list_query cols ++ ";\n        ")
        _ ?_ ?_
      · simp only [upsert_cmd, String.append_assoc]
      · exact joinSep_mem_part ", " _ _ (List.mem_map.mpr ⟨c, hc, rfl⟩)
    · refine strContainsP_via _
        ("\n        " ++ "MERGE INTO " ++ t ++ " AS [Target]" ++
         "\n        USING (\n            SELECT " ++
         cols_list_query cols ++ " \n            FROM (VALUES " ++ param_slots cols.length ++
         ") AS s (" ++ cols_list_query cols ++ ")\n        ) AS [Source]\n        ON " ++
         merge_on_str keys ++ "\n        " ++ "WHEN NOT MATCHED" ++ wf ++ " THEN" ++
         "\n            INSERT (" ++ cols_list_query cols ++
         ") \n            VALUES (" ++ sr_cols_list_query cols ++
         ")\n        " ++ "WHEN MATCHED AND (" ++ check_on_str cols ++ ")" ++ wf ++
         " THEN " ++ "\n            UPDATE SET ")
        (up_cols_list_query cols)
        ";\n        "
        _ ?_ ?_
      · simp only [upsert_cmd, String.append_assoc]
      · exact joinSep_mem_part ", " _ _ (List.mem_map.mpr ⟨c, hc, rfl⟩)
  · intro k hk
    refine strContainsP_via _
      ("\n        " ++ "MERGE INTO " ++ t ++ " AS [Target]" ++
       "\n        USING (\n            SELECT " ++
       cols_list_query cols ++ " \n            FROM (VALUES " ++ param_slots cols.length ++
       ") AS s (" ++ cols_list_query cols ++ ")\n        ) AS [Source]\n        ON ")
      (merge_on_str keys)
      ("\n        " ++ "WHEN NOT MATCHED" ++ wf ++ " THEN" ++
       "\n            INSERT (" ++ cols_list_query cols ++
       ") \n            VALUES (" ++ sr_cols_list_query cols ++
       ")\n        " ++ "WHEN MATCHED AND (" ++ check_on_str cols ++ ")" ++ wf ++
       " THEN " ++ "\n            UPDATE SET " ++ up_cols_list_query cols ++ ";\n        ")
      _ ?_ ?_
    · simp only [upsert_cmd, String.append_assoc]
    · refine strContainsP_mono _ ("[Target].[" ++ k ++ "]=[Source].[" ++ k ++ "] \n        ") _
        ?_ (joinSep_mem_part " AND " _ _ (List.mem_map.mpr ⟨k, hk, rfl⟩))
      have hsplit : ("[Target].[" ++ k ++ "]=[Source].[" ++ k ++ "] \n        " : String) =
          ("[Target].[" ++ k ++ "]=[Source].[" ++ k ++ "]") ++ " \n        " := by
        simp only [String.append_assoc]
        rfl
      rw [hsplit, String.data_append]
      exact List.prefix_append _ _
  · refine strContainsP_via _ "\n        " ("MERGE INTO " ++ t ++ " AS [Target]")
      ("\n        USING (\n            SELECT " ++
       cols_list_query cols ++ " \n            FROM (VALUES " ++ param_slots cols.length ++
       ") AS s (" ++ cols_list_query cols ++ ")\n        ) AS [Source]\n        ON " ++
       merge_on_str keys ++ "\n        " ++ "WHEN NOT MATCHED" ++ wf ++ " THEN" ++
       "\n            INSERT (" ++ cols_list_query cols ++
       ") \n            VALUES (" ++ sr_cols_list_query cols ++
       ")\n        " ++ "WHEN MATCHED AND (" ++ check_on_str cols ++ ")" ++ wf ++
       " THEN " ++ "\n            UPDATE SET " ++ up_cols_list_query cols ++ ";\n        ")
      _ ?_ List.infix_rfl
    simp only [upsert_cmd, String.append_assoc]
  · refine strContainsP_via _
      ("\n        " ++ "MERGE INTO " ++ t ++ " AS [Target]" ++
       "\n        USING (\n            SELECT " ++
       cols_list_query cols ++ " \n            FROM (VALUES " ++ param_slots cols.length)
      (") AS s (")
      (cols_list_query cols ++ ")\n        ) AS [Source]\n        ON " ++
       merge_on_str keys ++ "\n        " ++ "WHEN NOT MATCHED" ++ wf ++ " THEN" ++
       "\n            INSERT (" ++ cols_list_query cols ++
       ") \n            VALUES (" ++ sr_cols_list_query cols ++
       ")\n        " ++ "WHEN MATCHED AND (" ++ check_on_str cols ++ ")" ++ wf ++
       " THEN " ++ "\n            UPDATE SET " ++ up_cols_list_query cols ++ ";\n        ")
      _ ?_ List.infix_rfl
    simp only [upsert_cmd, String.append_assoc]

/-- Witness for the amended C5 at a concrete statement. -/
theorem upsert_identifier_quoting_witness :
    strContainsP (upsert_cmd "T" ["k"] ["k", "v"] "") "[Source].[v]" ∧
    strContainsP (upsert_cmd "T" ["k"] ["k", "v"] "") "MERGE INTO T AS [Target]" := by
  have h := upsert_identifier_quoting "T" ["k"] ["k", "v"] ""
  exact ⟨(h.1 "v" (by simp)).1, h.2.2.1⟩

/-! ### Claims about the sync delete reconciliation -/

theorem mem_merge_key_effect (server input : List KeyTuple) (x : KeyTuple) :
    x ∈ merge_key_effect server input ↔ x ∈ server ∨ x ∈ input := by
  constructor
  · intro h
    rcases List.mem_append.mp h with h | h
    · exact Or.inl h
    · exact Or.inr (List.mem_filter.mp h).1
  · rintro (h | h)
    · exact List.mem_append.mpr (Or.inl h)
    · by_cases hs : x ∈ server
      · exact List.mem_append.mpr (Or.inl hs)
      · refine List.mem_append.mpr (Or.inr (List.mem_filter.mpr ⟨h, ?_⟩))
        simp [List.contains, List.elem_iff, hs]

theorem mem_to_be_deleted (sv iv : List KeyTuple) (x : KeyTuple) :
    x ∈ to_be_deleted sv iv ↔ x ∈ sv ∧ x ∉ iv := by
  simp only [to_be_deleted, List.mem_filter, List.mem_dedup, Bool.not_eq_true']
  constructor
  · rintro ⟨h1, h2⟩
    exact ⟨h1, by simpa [List.contains, List.elem_iff] using h2⟩
  · rintro ⟨h1, h2⟩
    exact ⟨h1, by simpa [List.contains, List.elem_iff] using h2⟩

/-- The pattern `k ++ "=?"` occurs in the DELETE statement for every key
column `k`. -/
theorem delete_cmd_key_equality (t : String) (keys : List String) (k : String)
    (hk : k ∈ keys) : strContainsP (delete_cmd t keys) (k ++ "=?") := by
  refine strContainsP_via _ ("\n        DELETE FROM " ++ t ++ "\n        WHERE ")
    (delete_on_str keys) "" _ ?_ ?_
  · simp only [delete_cmd, String.append_assoc]
    rw [String.append_empty]
  · refine strContainsP_mono _ (k ++ "=?" ++ " \n            ") _ ?_
      (joinSep_mem_part " AND " _ _ (List.mem_map.mpr ⟨k, hk, rfl⟩))
    rw [String.data_append]
    exact List.prefix_append _ _

/-- C1: after the sync upsert, the delete set is computed as the set
difference of the key tuples currently in the (range-scoped) target minus
the input's key tuples; a non-empty difference yields exactly one batched
DELETE with one parameter group per tuple, matching all key columns by
equality, an empty difference skips the delete step as a no-op — and the
final key set of the target equals exactly the input's key set. -/
theorem sync_delete_reconciliation (t : String) (keycols : List String)
    (server input : List KeyTuple) :
    ((to_be_deleted (merge_key_effect server input) input).toFinset =
        (merge_key_effect server input).toFinset \ input.toFinset ∧
      (to_be_deleted (merge_key_effect server input) input).Nodup) ∧
    (sync_delete_step t keycols (merge_key_effect server input) input = none ↔
      (merge_key_effect server input).toFinset \ input.toFinset = ∅) ∧
    (∀ s ps, sync_delete_step t keycols (merge_key_effect server input) input = some (s, ps) →
      s = delete_cmd t keycols ∧
      ps.toFinset = (merge_key_effect server input).toFinset \ input.toFinset ∧
      ps.Nodup ∧
      ∀ k ∈ keycols, strContainsP s (k ++ "=?")) ∧
    (sync_final_keys t keycols server input).toFinset = input.toFinset := by
  have hset : (to_be_deleted (merge_key_effect server input) input).toFinset =
      (merge_key_effect server input).toFinset \ input.toFinset := by
    ext x
    simp [List.mem_toFinset, Finset.mem_sdiff, mem_to_be_deleted]
  have hnd : (to_be_deleted (merge_key_effect server input) input).Nodup :=
    List.Nodup.filter _ (List.nodup_dedup _)
  have hsub : ∀ x : KeyTuple, x ∈ input → x ∈ merge_key_effect server input :=
    fun x hx => (mem_merge_key_effect server input x).mpr (Or.inr hx)
  have hstep_pos : 0 < (to_be_deleted (merge_key_effect server input) input).length →
      sync_delete_step t keycols (merge_key_effect server input) input =
        some (delete_cmd t keycols, to_be_deleted (merge_key_effect server input) input) :=
    fun h => by
      unfold sync_delete_step
      rw [if_pos h]
  have hstep_neg : ¬ 0 < (to_be_deleted (merge_key_effect server input) input).length →
      sync_delete_step t keycols (merge_key_effect server input) input = none :=
    fun h => by
      unfold sync_delete_step
      rw [if_neg h]
  have hempty_of_neg : ¬ 0 < (to_be_deleted (merge_key_effect server input) input).length →
      to_be_deleted (merge_key_effect server input) input = [] := fun h => by
    cases hl : to_be_deleted (merge_key_effect server input) input with
    | nil => rfl
    | cons a as => exact absurd (by rw [hl]; exact Nat.succ_pos _) h
  refine ⟨⟨hset, hnd⟩, ?_, ?_, ?_⟩
  · rw [← hset, List.toFinset_eq_empty_iff]
    constructor
    · intro h
      by_cases hpos : 0 < (to_be_deleted (merge_key_effect server input) input).length
      · rw [hstep_pos hpos] at h
        exact Option.noConfusion h
      · exact hempty_of_neg hpos
    · intro h
      refine hstep_neg ?_
      rw [h]
      simp
  · intro s ps hsp
    by_cases hpos : 0 < (to_be_deleted (merge_key_effect server input) input).length
    · rw [hstep_pos hpos] at hsp
      cases Option.some.inj hsp
      exact ⟨rfl, hset, hnd, fun k hk => delete_cmd_key_equality t keycols k hk⟩
    · rw [hstep_neg hpos] at hsp
      exact Option.noConfusion hsp
  · by_cases hpos : 0 < (to_be_deleted (merge_key_effect server input) input).length
    · have hfk : sync_final_keys t keycols server input =
          delete_key_effect (merge_key_effect server input)
            (to_be_deleted (merge_key_effect server input) input) := by
        unfold sync_final_keys
        rw [hstep_pos hpos]
      rw [hfk]
      ext x
      simp only [List.mem_toFinset, delete_key_effect, List.mem_filter, Bool.not_eq_true']
      constructor
      · rintro ⟨hmem, hnc⟩
        have hnd2 : x ∉ to_be_deleted (merge_key_effect server input) input := by
          simpa [List.contains, List.elem_iff] using hnc
        rw [mem_to_be_deleted] at hnd2
        by_cases hin : x ∈ input
        · exact hin
        · exact absurd ⟨hmem, hin⟩ hnd2
      · intro hin
        refine ⟨hsub x hin, ?_⟩
        have hx : x ∉ to_be_deleted (merge_key_effect server input) input := by
          rw [mem_to_be_deleted]
          rintro ⟨_, hno⟩
          exact hno hin
        simpa [List.contains, List.elem_iff] using hx
    · have hfk : sync_final_keys t keycols server input = merge_key_effect server input := by
        unfold sync_final_keys
        rw [hstep_neg hpos]
      rw [hfk]
      ext x
      simp only [List.mem_toFinset]
      constructor
      · intro hmem
        by_cases hin : x ∈ input
        · exact hin
        · have hx : x ∈ to_be_deleted (merge_key_effect server input) input :=
            (mem_to_be_deleted _ _ x).mpr ⟨hmem, hin⟩
          rw [hempty_of_neg hpos] at hx
          cases hx
      · exact hsub x

/-- Witness for C1: target keys {A,B}, input keys {B,C} — the delete step
issues the batched DELETE for {A} with the key column matched by
equality, and the final key set is exactly {B,C}. -/
theorem sync_delete_reconciliation_witness :
    strContainsP (delete_cmd "T" ["k"]) ("k" ++ "=?") ∧
    (sync_final_keys "T" ["k"] [[PyVal.vStr "A"], [PyVal.vStr "B"]]
        [[PyVal.vStr "B"], [PyVal.vStr "C"]]).toFinset =
      ([[PyVal.vStr "B"], [PyVal.vStr "C"]] : List KeyTuple).toFinset := by
  have h := sync_delete_reconciliation "T" ["k"] [[PyVal.vStr "A"], [PyVal.vStr "B"]]
    [[PyVal.vStr "B"], [PyVal.vStr "C"]]
  have hs := h.2.2.1 (delete_cmd "T" ["k"]) [[PyVal.vStr "A"]] (by rfl)
  exact ⟨hs.2.2.2 "k" (by simp), h.2.2.2⟩

end FaktumTools
